import Mathlib

/-!
# tumble / tiff2pdf (t2p.c): output-document registry and page processing

A shallow embedding of `src/t2p.c`.  Global variables (`output_files`, `out`) become
fields of an explicit `State`; every call into a library (panda, libtiff, bitblt) is
appended to `State.trace`, and the value the library returns is supplied by an
oracle argument, so that every theorem holds for all behaviours of the libraries.
-/

set_option autoImplicit false

namespace T2P

/-! ## Data model -/

/-- Handle of a `panda_pdf *` returned by `panda_open` (never NULL; NULL is `none`). -/
abbrev panda_pdf := Nat

/-- Handle of a `panda_page *` returned by `panda_newpage`. -/
abbrev panda_page := Nat

/-- A node of the `output_file_t` list: `name` and `pdf`; `next` is the tail of the list. -/
structure output_file_t where
  name : String
  pdf : panda_pdf
  deriving DecidableEq, Repr

/-- Modelled from the spec: `pdf_file_attributes_t` is declared in tiff2pdf.h, which is
not part of the sources; the five string fields read by `open_pdf_output_file`
(the metadata author/creator/title/subject/keywords), each possibly NULL. -/
structure pdf_file_attributes_t where
  author : Option String
  creator : Option String
  title : Option String
  subject : Option String
  keywords : Option String
  deriving DecidableEq, Repr

/-- Modelled from the spec: `Point` of bitblt.h (not part of the sources). -/
structure Point where
  x : Int
  y : Int
  deriving DecidableEq, Repr

/-- Modelled from the spec: `Rect` of bitblt.h (not part of the sources). -/
structure Rect where
  upper_left : Point
  lower_right : Point
  deriving DecidableEq, Repr

/-- Modelled from the spec: `Bitmap` of bitblt.h (not part of the sources), the pixel
buffer `{width, height, row_stride, bits}`; `bits` is the address of the buffer, which
holds `height` rows of `rowbytes` bytes. -/
structure Bitmap where
  bits : Nat
  width : Nat
  height : Nat
  rowbytes : Nat
  deriving DecidableEq, Repr

/-- A call into one of the libraries, with the arguments that were passed.  Arguments that
are the same in every call are left out: the `TIFF *` handles and the sample number 0 of
the scanline calls, the NULL `dest_bitmap` of `bitblt`, the file name and the image type
of `panda_imagebox`.  `buf` is the address `bits + row * rowbytes` passed as the buffer. -/
inductive Call where
  | panda_open (name : String) (mode : String)
  | panda_setauthor (pdf : panda_pdf) (v : String)
  | panda_setcreator (pdf : panda_pdf) (v : String)
  | panda_settitle (pdf : panda_pdf) (v : String)
  | panda_setsubject (pdf : panda_pdf) (v : String)
  | panda_setkeywords (pdf : panda_pdf) (v : String)
  | panda_close (pdf : panda_pdf)
  | panda_newpage (pdf : panda_pdf) (pagesize : String)
  | panda_imagebox (pdf : panda_pdf) (page : panda_page) (top left bottom right : Int)
  | create_bitmap (width height : Nat)
  | TIFFReadScanline (buf : Nat) (row : Nat)
  | bitblt (src : Bitmap) (src_rect : Rect) (dest_upper_left : Point) (scan : Int) (tfn : Int)
  | TIFFWriteScanline (buf : Nat) (row : Nat)
  | TIFFClose_temp
  deriving DecidableEq, Repr

/-- The globals `output_files` (head of the list) and `out` (NULL is `none`), and the
calls made into the libraries so far, oldest first. -/
structure State where
  output_files : List output_file_t
  out : Option output_file_t
  trace : List Call
  deriving DecidableEq, Repr

/-! ## close_pdf_output_files (t2p.c 101-115) -/

/-- The `for (o = output_files; o; o = n)` loop: one `panda_close (o->pdf)` per node. -/
def close_loop : List output_file_t → List Call
  | [] => []
  | o :: n => Call.panda_close o.pdf :: close_loop n

/-- Function `close_pdf_output_files`: closes every node, then clears both globals. -/
def close_pdf_output_files (s : State) : Bool × State :=
  (true, { output_files := [], out := none, trace := s.trace ++ close_loop s.output_files })

/-! ## open_pdf_output_file (t2p.c 117-171) -/

/-- Results of the three calls of `open_pdf_output_file` that can fail. -/
structure open_oracle where
  calloc_ok : Bool
  strdup_ok : Bool
  panda_open : Option panda_pdf
  deriving DecidableEq, Repr

/-- The `for (o = output_files; o; o = o->next) if (strcmp (name, o->name) == 0)` loop. -/
def find_output (name : String) : List output_file_t → Option output_file_t
  | [] => none
  | o :: next => if name = o.name then some o else find_output name next

/-- One `if (attributes->field) panda_setfield (o->pdf, attributes->field)`. -/
def set_attribute (f : String → Call) : Option String → List Call
  | some v => [f v]
  | none => []

/-- The five conditional `panda_set...` calls, in source order. -/
def set_attributes (pdf : panda_pdf) (attributes : pdf_file_attributes_t) : List Call :=
  set_attribute (Call.panda_setauthor pdf) attributes.author ++
  set_attribute (Call.panda_setcreator pdf) attributes.creator ++
  set_attribute (Call.panda_settitle pdf) attributes.title ++
  set_attribute (Call.panda_setsubject pdf) attributes.subject ++
  set_attribute (Call.panda_setkeywords pdf) attributes.keywords

/-- The test `out && (strcmp (name, out->name) == 0)`. -/
def out_has_name (name : String) : Option output_file_t → Bool
  | some o => decide (name = o.name)
  | none => false

/-- Function `open_pdf_output_file`. -/
def open_pdf_output_file (env : open_oracle) (name : String)
    (attributes : pdf_file_attributes_t) (s : State) : Bool × State :=
  if out_has_name name s.out then (true, s)
  else match find_output name s.output_files with
    | some o => (true, { s with out := some o })
    | none =>
      if env.calloc_ok = false then (false, s)
      else if env.strdup_ok = false then (false, s)
      else match env.panda_open with
        | none => (false, { s with trace := s.trace ++ [Call.panda_open name "w"] })
        | some pdf =>
          (true, { output_files := ⟨name, pdf⟩ :: s.output_files,
                   out := some ⟨name, pdf⟩,
                   trace := s.trace ++ [Call.panda_open name "w"] ++ set_attributes pdf attributes })

/-- The pointer `out` is NULL or points to a node of the list `output_files`. -/
def out_valid (s : State) : Prop :=
  s.out = none ∨ ∃ e ∈ s.output_files, s.out = some e

/-- States reached from the empty registry by calls of `open_pdf_output_file` (with any
arguments and any outcome of the library calls) and `close_pdf_output_files`. -/
inductive Reachable : State → Prop where
  | init (t : List Call) : Reachable { output_files := [], out := none, trace := t }
  | open_file (env : open_oracle) (name : String) (attributes : pdf_file_attributes_t)
      (s : State) : Reachable s → Reachable (open_pdf_output_file env name attributes s).2
  | close_files (s : State) : Reachable s → Reachable (close_pdf_output_files s).2

/-! ## Arithmetic of the C type `float` -/

/-- The operations on the C type `float` that `process_page` uses.  The source fixes
neither the format of `float` nor the precision in which the expression
`(image_width / x_resolution) * POINTS_PER_INCH` is evaluated, so `process_page` takes them
as a parameter: `of_int` converts an integer constant, `div_u32` is `u32 / float`,
`mul_int` is `float * int`, and `to_int` is the conversion done by the assignment to an
`int` variable. -/
structure float_ops (F : Type) where
  of_int : Int → F
  div_u32 : Nat → F → F
  mul_int : F → Int → F
  to_int : F → Int

/-- Number of binary digits of `n`, by halving; `fuel` bounds the number of steps. -/
def bit_length_aux : Nat → Nat → Nat
  | 0, _ => 0
  | fuel + 1, n => if n = 0 then 0 else bit_length_aux fuel (n / 2) + 1

/-- Number of binary digits of `n` (0 for 0). -/
def bit_length (n : Nat) : Nat := bit_length_aux n n

/-- The positive rational `num / den` rounded to `p` significant bits, ties to even, as a
pair `(m, e)` standing for `m * 2 ^ e`, with an unbounded exponent. -/
def round_to (p : Nat) (num den : Nat) : Nat × Int :=
  let e0 : Int := (bit_length num : Int) - (bit_length den : Int) - (p : Int)
  let n1 : Nat := if e0 < 0 then num * 2 ^ e0.natAbs else num
  let d0 : Nat := if e0 < 0 then den else den * 2 ^ e0.natAbs
  let big : Bool := decide (2 ^ p * d0 ≤ n1)
  let d1 : Nat := if big then 2 * d0 else d0
  let e1 : Int := if big then e0 + 1 else e0
  let q : Nat := n1 / d1
  let r : Nat := n1 % d1
  if d1 < 2 * r ∨ (2 * r = d1 ∧ q % 2 = 1) then (q + 1, e1) else (q, e1)

/-- A value of a binary floating-point format: `finite neg m e` is `(-1)^neg * m * 2^e`. -/
inductive fp_value where
  | finite (neg : Bool) (m : Nat) (e : Int)
  | infinite (neg : Bool)
  | nan
  deriving DecidableEq, Repr

/-- Conversion of an integer to a float of `p` significant bits. -/
def fp_of_int (p : Nat) (i : Int) : fp_value :=
  if i = 0 then .finite false 0 0
  else .finite (decide (i < 0)) (round_to p i.natAbs 1).1 (round_to p i.natAbs 1).2

/-- Quotient `(float) w / r`, each step rounded to `p` significant bits. -/
def fp_div_u32 (p : Nat) (w : Nat) : fp_value → fp_value
  | .nan => .nan
  | .infinite neg => .finite neg 0 0
  | .finite neg m e =>
    if m = 0 then (if w = 0 then .nan else .infinite neg)
    else if w = 0 then .finite neg 0 0
    else
      .finite neg (round_to p (round_to p w 1).1 m).1
        ((round_to p (round_to p w 1).1 m).2 + (round_to p w 1).2 - e)

/-- Product `x * (float) i`, each step rounded to `p` significant bits. -/
def fp_mul_int (p : Nat) : fp_value → Int → fp_value
  | .nan, _ => .nan
  | .infinite neg, i => if i = 0 then .nan else .infinite (xor neg (decide (i < 0)))
  | .finite neg m e, i =>
    if m = 0 ∨ i = 0 then .finite (xor neg (decide (i < 0))) 0 0
    else
      .finite (xor neg (decide (i < 0)))
        (round_to p (m * (round_to p i.natAbs 1).1) 1).1
        ((round_to p (m * (round_to p i.natAbs 1).1) 1).2 + (round_to p i.natAbs 1).2 + e)

/-- Conversion of a floating-point value to `int`: truncation toward zero; a value outside
the range of `int`, an infinity or a NaN has no defined result in C, and the model returns
`INT_MIN`, as the x86 conversion instructions do. -/
def fp_to_int : fp_value → Int
  | .nan => -2147483648
  | .infinite _ => -2147483648
  | .finite neg m e =>
    let mag : Nat := if e < 0 then m / 2 ^ e.natAbs else m * 2 ^ e.natAbs
    let v : Int := if neg then -(mag : Int) else (mag : Int)
    if -2147483648 ≤ v ∧ v ≤ 2147483647 then v else -2147483648

/-- The arithmetic of a target that rounds the result of every `float` operation to `p`
significant bits (to nearest, ties to even).  Overflow and underflow of the exponent are
not modelled: a result that overflows is outside the range of `int` in either case, and
one that underflows is converted to 0 in either case. -/
def fp_ops (p : Nat) : float_ops fp_value :=
  { of_int := fp_of_int p
    div_u32 := fp_div_u32 p
    mul_int := fp_mul_int p
    to_int := fp_to_int }

/-- A target that evaluates every `float` operation in IEEE 754 binary32 (24 significant
bits), as x86-64 does. -/
def binary32_ops : float_ops fp_value := fp_ops 24

/-- A target that evaluates `float` expressions in the x87 extended format (64
significant bits) and only rounds to binary32 when a value is stored. -/
def extended_ops : float_ops fp_value := fp_ops 64

/-! ## rotate_bitmap (t2p.c 182-213) -/

/-- Modelled from the spec: the scan codes `ROT_0`, `ROT_90`, `ROT_180`, `ROT_270` and
the transfer function `TF_SRC` are constants of bitblt.h, which is not part of the
sources; they are taken as parameters. -/
structure bitblt_consts where
  ROT_0 : Int
  ROT_90 : Int
  ROT_180 : Int
  ROT_270 : Int
  TF_SRC : Int
  deriving DecidableEq, Repr

/-- Modelled from the spec: `input_attributes_t` is declared in tiff2pdf.h, which is not
part of the sources; `process_page` reads only its `rotation` field. -/
structure input_attributes_t where
  rotation : Int
  deriving DecidableEq, Repr

/-- The `switch (rotation)` of `rotate_bitmap`; `none` is the `default:` case. -/
def scan_code (k : bitblt_consts) (rotation : Int) : Option Int :=
  if rotation = 0 then some k.ROT_0
  else if rotation = 90 then some k.ROT_90
  else if rotation = 180 then some k.ROT_180
  else if rotation = 270 then some k.ROT_270
  else none

/-- Function `rotate_bitmap`: the result (NULL is `none`) and the calls it makes; `bitblt`
gives the value returned by the library function for the arguments passed (the
`dest_bitmap` argument is always NULL). -/
def rotate_bitmap (k : bitblt_consts)
    (bitblt : Bitmap → Rect → Point → Int → Int → Option Bitmap)
    (src : Bitmap) (rotation : Int) : Option Bitmap × List Call :=
  let src_rect : Rect := ⟨⟨0, 0⟩, ⟨(src.width : Int), (src.height : Int)⟩⟩
  let dest_upper_left : Point := ⟨0, 0⟩
  match scan_code k rotation with
  | none => (none, [])
  | some scan =>
    (bitblt src src_rect dest_upper_left scan k.TF_SRC,
     [Call.bitblt src src_rect dest_upper_left scan k.TF_SRC])

/-! ## process_page (t2p.c 218-473) -/

/-- Constant `POINTS_PER_INCH`. -/
def POINTS_PER_INCH : Int := 72

/-- Constant `PAGE_MAX_INCHES`. -/
def PAGE_MAX_INCHES : Int := 45

/-- Constant `PAGE_MAX_POINTS`. -/
def PAGE_MAX_POINTS : Int := PAGE_MAX_INCHES * POINTS_PER_INCH

/-- What the libraries return to one call of `process_page`: for each `TIFFGetField` the
value of the tag (`none` when the call does not return 1), the results of `mkstemp`,
`create_bitmap`, `bitblt` and `panda_newpage`, and for each row the result of the checked
`TIFFReadScanline` and of `TIFFWriteScanline`. -/
structure page_oracle (F : Type) where
  TIFFSetDirectory : Int → Bool
  IMAGELENGTH : Option Nat
  IMAGEWIDTH : Option Nat
  SAMPLESPERPIXEL : Option Nat
  BITSPERSAMPLE : Option Nat
  PLANARCONFIG : Option Nat
  RESOLUTIONUNIT : Option Nat
  XRESOLUTION : Option F
  YRESOLUTION : Option F
  mkstemp : Int
  create_bitmap : Nat → Nat → Option Bitmap
  TIFFReadScanline : Nat → Int
  bitblt : Bitmap → Rect → Point → Int → Int → Option Bitmap
  TIFFWriteScanline : Nat → Int
  panda_newpage : panda_page

/-- The expression `(n / resolution) * POINTS_PER_INCH` assigned to an `int`. -/
def to_points {F : Type} (fl : float_ops F) (n : Nat) (resolution : F) : Int :=
  fl.to_int (fl.mul_int (fl.div_u32 n resolution) POINTS_PER_INCH)

/-- A loop `for (row = 0; row < n; row++) if (1 != f (..., row, 0)) goto fail;` over the
rows listed: whether it ran to the end, and the calls made (the failing one included). -/
def checked_rows (call : Nat → Call) (result : Nat → Int) : List Nat → Bool × List Call
  | [] => (true, [])
  | row :: rest =>
    if result row ≠ 1 then (false, [call row])
    else ((checked_rows call result rest).1, call row :: (checked_rows call result rest).2)

/-- The call `TIFFReadScanline (in, src_bitmap->bits + row * src_bitmap->rowbytes, row, 0)`. -/
def read_call (src_bitmap : Bitmap) (row : Nat) : Call :=
  Call.TIFFReadScanline (src_bitmap.bits + row * src_bitmap.rowbytes) row

/-- The call `TIFFWriteScanline (tiff_temp, dest_bitmap->bits + row * dest_bitmap->rowbytes,
row, 0)`. -/
def write_call (dest_bitmap : Bitmap) (row : Nat) : Call :=
  Call.TIFFWriteScanline (dest_bitmap.bits + row * dest_bitmap.rowbytes) row

/-- The string written by `sprintf (pagesize, "[0 0 %d %d]", width_points, height_points)`. -/
def pagesize_string (width_points height_points : Int) : String :=
  "[0 0 " ++ toString width_points ++ " " ++ toString height_points ++ "]"

/-- The test `(rotation == 90) || (rotation == 270)` of line 370. -/
def quarter_turn (input_attributes : input_attributes_t) : Bool :=
  decide (input_attributes.rotation = 90 ∨ input_attributes.rotation = 270)

/-- The variable `planar_config` after line 294: the tag, or 1 when it is absent. -/
def planar_config {F : Type} (env : page_oracle F) : Nat := env.PLANARCONFIG.getD 1

/-- The variable `x_resolution` after line 310: the tag, or 300 when it is absent. -/
def x_resolution {F : Type} (fl : float_ops F) (env : page_oracle F) : F :=
  env.XRESOLUTION.getD (fl.of_int 300)

/-- The variable `y_resolution` after line 312: the tag, or 300 when it is absent. -/
def y_resolution {F : Type} (fl : float_ops F) (env : page_oracle F) : F :=
  env.YRESOLUTION.getD (fl.of_int 300)

/-- Lines 401-467 of `process_page`: the source bitmap is created, every row is read by the
unchecked loop (bound `image_length`) and again by the checked loop (bound
`dest_image_length`), the bitmap is rotated and written to the temporary file, and the page
is added to `out->pdf`.  `o` is the node `out` points to, `width_points` and
`height_points` are the values after the `SWAP` of line 376. -/
def transfer_page {F : Type} (k : bitblt_consts) (env : page_oracle F) (rotation : Int)
    (s : State) (o : output_file_t) (image_width image_length dest_image_length : Nat)
    (width_points height_points : Int) : Bool × State :=
  match env.create_bitmap image_width image_length with
  | none => (false, { s with trace := s.trace ++ [Call.create_bitmap image_width image_length] })
  | some src_bitmap =>
    match checked_rows (read_call src_bitmap) env.TIFFReadScanline
        (List.range dest_image_length) with
    | (false, reads2) =>
      (false, { s with trace := s.trace ++ ([Call.create_bitmap image_width image_length] ++
        List.map (read_call src_bitmap) (List.range image_length) ++ reads2) })
    | (true, reads2) =>
      match rotate_bitmap k env.bitblt src_bitmap rotation with
      | (none, blt) =>
        (false, { s with trace := s.trace ++ ([Call.create_bitmap image_width image_length] ++
          List.map (read_call src_bitmap) (List.range image_length) ++ reads2 ++ blt) })
      | (some dest_bitmap, blt) =>
        match checked_rows (write_call dest_bitmap) env.TIFFWriteScanline
            (List.range dest_bitmap.height) with
        | (false, writes) =>
          (false, { s with trace := s.trace ++ ([Call.create_bitmap image_width image_length] ++
            List.map (read_call src_bitmap) (List.range image_length) ++ reads2 ++ blt ++
            writes) })
        | (true, writes) =>
          (true, { s with trace := s.trace ++ ([Call.create_bitmap image_width image_length] ++
            List.map (read_call src_bitmap) (List.range image_length) ++ reads2 ++ blt ++
            writes ++
            [Call.TIFFClose_temp,
             Call.panda_newpage o.pdf (pagesize_string width_points height_points),
             Call.panda_imagebox o.pdf env.panda_newpage 0 0 height_points width_points]) })

/-- Function `process_page`: lines 257-384 (the tags are read and checked, the page size is
computed and checked, the temporary file is created, `out` is tested, and the dimensions
are swapped for a quarter turn), followed by `transfer_page`.  Calls that only print, that
write tags of the temporary TIFF file or that create and unlink it are not recorded in the
trace. -/
def process_page {F : Type} (fl : float_ops F) (k : bitblt_consts) (env : page_oracle F)
    (image : Int) (input_attributes : input_attributes_t) (s : State) : Bool × State :=
  if env.TIFFSetDirectory (image - 1) = false then (false, s) else
  match env.IMAGELENGTH with
  | none => (false, s)
  | some image_length =>
  match env.IMAGEWIDTH with
  | none => (false, s)
  | some image_width =>
  match env.SAMPLESPERPIXEL with
  | none => (false, s)
  | some samples_per_pixel =>
  match env.BITSPERSAMPLE with
  | none => (false, s)
  | some bits_per_sample =>
  if samples_per_pixel ≠ 1 then (false, s) else
  if bits_per_sample ≠ 1 then (false, s) else
  if planar_config env ≠ 1 then (false, s) else
  if to_points fl image_length (y_resolution fl env) > PAGE_MAX_POINTS ∨
      to_points fl image_width (x_resolution fl env) > PAGE_MAX_POINTS then (false, s) else
  if env.mkstemp < 0 then (false, s) else
  match s.out with
  | none => (false, s)
  | some o =>
    if quarter_turn input_attributes = true then
      transfer_page k env input_attributes.rotation s o image_width image_length image_width
        (to_points fl image_length (y_resolution fl env))
        (to_points fl image_width (x_resolution fl env))
    else
      transfer_page k env input_attributes.rotation s o image_width image_length image_length
        (to_points fl image_width (x_resolution fl env))
        (to_points fl image_length (y_resolution fl env))

/-- The calls of a trace that go to the panda library (the document sink). -/
def is_panda : Call → Bool
  | .panda_open _ _ => true
  | .panda_setauthor _ _ => true
  | .panda_setcreator _ _ => true
  | .panda_settitle _ _ => true
  | .panda_setsubject _ _ => true
  | .panda_setkeywords _ _ => true
  | .panda_close _ => true
  | .panda_newpage _ _ => true
  | .panda_imagebox _ _ _ _ _ _ => true
  | _ => false

/-- The rows requested by the `TIFFReadScanline` calls of a trace, in call order. -/
def read_rows : List Call → List Nat
  | [] => []
  | .TIFFReadScanline _ row :: t => row :: read_rows t
  | _ :: t => read_rows t


/-! ## Concrete collaborators used in the examples -/

/-- Scan codes used in the examples. -/
def example_consts : bitblt_consts :=
  { ROT_0 := 0, ROT_90 := 1, ROT_180 := 2, ROT_270 := 3, TF_SRC := 12 }

/-- Collaborators for a bilevel page of `width` by `length` pixels with the resolution
tags given: every tag but the planar configuration is present, `create_bitmap` returns a
buffer at address 1000 with `(width - 1) / 8 + 1` bytes per row, `TIFFReadScanline` returns
1 for the rows of the image and -1 for any other row, `bitblt` returns a bitmap at address
5000 (transposed for the codes 1 and 3), and every write succeeds. -/
def example_page (width length : Nat) (xres yres : Option fp_value) : page_oracle fp_value :=
  { TIFFSetDirectory := fun _ => true
    IMAGELENGTH := some length
    IMAGEWIDTH := some width
    SAMPLESPERPIXEL := some 1
    BITSPERSAMPLE := some 1
    PLANARCONFIG := none
    RESOLUTIONUNIT := some 2
    XRESOLUTION := xres
    YRESOLUTION := yres
    mkstemp := 3
    create_bitmap := fun w h => some ⟨1000, w, h, (w - 1) / 8 + 1⟩
    TIFFReadScanline := fun row => if row < length then 1 else -1
    bitblt := fun src _ _ scan _ =>
      if scan = 1 ∨ scan = 3 then some ⟨5000, src.height, src.width, (src.height - 1) / 8 + 1⟩
      else some ⟨5000, src.width, src.height, src.rowbytes⟩
    TIFFWriteScanline := fun _ => 1
    panda_newpage := 7 }

/-- A registry with the document "a.pdf" (handle 5) registered and current. -/
def example_state : State :=
  { output_files := [⟨"a.pdf", 5⟩], out := some ⟨"a.pdf", 5⟩, trace := [] }

/-! ## Exact arithmetic, for comparison with the rounded arithmetic -/

/-- The rational number a finite floating-point value stands for (0 for an infinity or a
NaN). -/
def fp_to_rat : fp_value → ℚ
  | .finite neg m e => (if neg then -1 else 1) * (m : ℚ) * (2 : ℚ) ^ e
  | _ => 0

/-- The page dimension as the specification words it: `floor (n / resolution * 72)` in
exact arithmetic. -/
def exact_points (n : Nat) (resolution : ℚ) : Int := ⌊(n : ℚ) / resolution * 72⌋

theorem find_output_none (name : String) (l : List output_file_t)
    (h : find_output name l = none) : name ∉ l.map output_file_t.name := by
  induction l with
  | nil => simp
  | cons o n ih =>
    simp only [find_output] at h
    split at h
    · cases h
    · rename_i hne
      simp only [List.map_cons, List.mem_cons, not_or]
      exact ⟨hne, ih h⟩

theorem find_output_some (name : String) (l : List output_file_t) (o : output_file_t)
    (h : find_output name l = some o) : o ∈ l ∧ o.name = name := by
  induction l with
  | nil => simp [find_output] at h
  | cons a n ih =>
    simp only [find_output] at h
    split at h
    · rename_i heq
      cases h
      exact ⟨List.mem_cons_self _ _, heq.symm⟩
    · exact ⟨List.mem_cons_of_mem _ (ih h).1, (ih h).2⟩

theorem find_output_isSome (name : String) (l : List output_file_t)
    (h : ∃ e ∈ l, e.name = name) : ∃ o, find_output name l = some o := by
  cases hf : find_output name l with
  | some o => exact ⟨o, rfl⟩
  | none =>
    obtain ⟨e, he, hn⟩ := h
    exact absurd (List.mem_map.mpr ⟨e, he, hn⟩) (find_output_none name l hf)

theorem out_has_name_true (name : String) (o : Option output_file_t)
    (h : out_has_name name o = true) : ∃ e, o = some e ∧ e.name = name := by
  cases o with
  | none => simp [out_has_name] at h
  | some e =>
    simp only [out_has_name, decide_eq_true_eq] at h
    exact ⟨e, rfl, h.symm⟩

/-- Claim C1: whenever `name` is the name of a registered output document (and `out` is
NULL or points into the registry), `open_pdf_output_file` returns success, `out` becomes a
registry entry of that name, no library call is made (no container opened, no attribute
applied), and the list `output_files` is unchanged. -/
theorem open_existing_name (env : open_oracle) (name : String)
    (attributes : pdf_file_attributes_t) (s : State)
    (hv : out_valid s) (hreg : ∃ e ∈ s.output_files, e.name = name) :
    (open_pdf_output_file env name attributes s).1 = true ∧
    (∃ e ∈ s.output_files, e.name = name ∧
      (open_pdf_output_file env name attributes s).2.out = some e) ∧
    (open_pdf_output_file env name attributes s).2.output_files = s.output_files ∧
    (open_pdf_output_file env name attributes s).2.trace = s.trace := by
  unfold open_pdf_output_file
  by_cases h1 : out_has_name name s.out = true
  · rw [if_pos h1]
    obtain ⟨e, he, hn⟩ := out_has_name_true name s.out h1
    refine ⟨rfl, ?_, rfl, rfl⟩
    rcases hv with hnone | ⟨e2, hmem, hout⟩
    · rw [hnone] at he; cases he
    · rw [hout] at he
      have he2 : e2 = e := Option.some.inj he
      subst he2
      exact ⟨e2, hmem, hn, hout⟩
  · rw [if_neg h1]
    obtain ⟨o, ho⟩ := find_output_isSome name s.output_files hreg
    rw [ho]
    obtain ⟨hmem, hn⟩ := find_output_some name s.output_files o ho
    exact ⟨rfl, ⟨o, hmem, hn, rfl⟩, rfl, rfl⟩

/-- Witness of C1: with "a.pdf" and "b.pdf" registered and "b.pdf" current, opening
"a.pdf" again (with an author attribute) selects the registered entry and does nothing else. -/
theorem open_existing_name_witness :
    out_valid ⟨[⟨"b.pdf", 2⟩, ⟨"a.pdf", 1⟩], some ⟨"b.pdf", 2⟩, []⟩ ∧
    (open_pdf_output_file ⟨true, true, some 3⟩ "a.pdf" ⟨some "x", none, none, none, none⟩
      ⟨[⟨"b.pdf", 2⟩, ⟨"a.pdf", 1⟩], some ⟨"b.pdf", 2⟩, []⟩).1 = true ∧
    (∃ e ∈ [(⟨"b.pdf", 2⟩ : output_file_t), ⟨"a.pdf", 1⟩], e.name = "a.pdf" ∧
      (open_pdf_output_file ⟨true, true, some 3⟩ "a.pdf" ⟨some "x", none, none, none, none⟩
        ⟨[⟨"b.pdf", 2⟩, ⟨"a.pdf", 1⟩], some ⟨"b.pdf", 2⟩, []⟩).2.out = some e) ∧
    (open_pdf_output_file ⟨true, true, some 3⟩ "a.pdf" ⟨some "x", none, none, none, none⟩
      ⟨[⟨"b.pdf", 2⟩, ⟨"a.pdf", 1⟩], some ⟨"b.pdf", 2⟩, []⟩).2.output_files
        = [⟨"b.pdf", 2⟩, ⟨"a.pdf", 1⟩] ∧
    (open_pdf_output_file ⟨true, true, some 3⟩ "a.pdf" ⟨some "x", none, none, none, none⟩
      ⟨[⟨"b.pdf", 2⟩, ⟨"a.pdf", 1⟩], some ⟨"b.pdf", 2⟩, []⟩).2.trace = [] :=
  ⟨Or.inr ⟨⟨"b.pdf", 2⟩, by simp, rfl⟩,
   open_existing_name ⟨true, true, some 3⟩ "a.pdf" ⟨some "x", none, none, none, none⟩
    ⟨[⟨"b.pdf", 2⟩, ⟨"a.pdf", 1⟩], some ⟨"b.pdf", 2⟩, []⟩
    (Or.inr ⟨⟨"b.pdf", 2⟩, by simp, rfl⟩) ⟨⟨"a.pdf", 1⟩, by simp, rfl⟩⟩

/-- The invariant of C2 for one state. -/
theorem registry_inv_open (env : open_oracle) (name : String)
    (attributes : pdf_file_attributes_t) (s : State)
    (hd : (s.output_files.map output_file_t.name).Nodup) (hv : out_valid s) :
    ((open_pdf_output_file env name attributes s).2.output_files.map output_file_t.name).Nodup ∧
    out_valid (open_pdf_output_file env name attributes s).2 := by
  unfold open_pdf_output_file
  by_cases h1 : out_has_name name s.out = true
  · rw [if_pos h1]; exact ⟨hd, hv⟩
  · rw [if_neg h1]
    cases hf : find_output name s.output_files with
    | some o =>
      exact ⟨hd, Or.inr ⟨o, (find_output_some name s.output_files o hf).1, rfl⟩⟩
    | none =>
      have hnot := find_output_none name s.output_files hf
      by_cases hc : env.calloc_ok = false
      · rw [if_pos hc]; exact ⟨hd, hv⟩
      · rw [if_neg hc]
        by_cases hs : env.strdup_ok = false
        · rw [if_pos hs]; exact ⟨hd, hv⟩
        · rw [if_neg hs]
          cases hp : env.panda_open with
          | none => exact ⟨hd, hv⟩
          | some pdf =>
            refine ⟨?_, Or.inr ⟨⟨name, pdf⟩, List.mem_cons_self _ _, rfl⟩⟩
            simp only [List.map_cons, List.nodup_cons]
            exact ⟨hnot, hd⟩

/-- Claim C2: in every state reachable from the empty registry by calls of
`open_pdf_output_file` and `close_pdf_output_files` (whatever their outcome), the names of
the registered output documents are pairwise distinct and `out` is NULL or an entry of
the registry. -/
theorem reachable_registry_invariant (s : State) (h : Reachable s) :
    (s.output_files.map output_file_t.name).Nodup ∧ out_valid s := by
  induction h with
  | init t => exact ⟨List.nodup_nil, Or.inl rfl⟩
  | open_file env name attributes s _ ih => exact registry_inv_open env name attributes s ih.1 ih.2
  | close_files s _ _ => exact ⟨List.nodup_nil, Or.inl rfl⟩

/-- Witness of C2: open "a.pdf", open "b.pdf", a failed open of "c.pdf", open "a.pdf" again. -/
theorem reachable_registry_invariant_witness :
    (((open_pdf_output_file ⟨true, true, some 9⟩ "a.pdf" ⟨none, none, none, none, none⟩
        (open_pdf_output_file ⟨true, true, none⟩ "c.pdf" ⟨none, none, none, none, none⟩
          (open_pdf_output_file ⟨true, true, some 2⟩ "b.pdf" ⟨none, none, none, none, none⟩
            (open_pdf_output_file ⟨true, true, some 1⟩ "a.pdf" ⟨none, none, none, none, none⟩
              ⟨[], none, []⟩).2).2).2).2.output_files.map output_file_t.name).Nodup) ∧
    out_valid (open_pdf_output_file ⟨true, true, some 9⟩ "a.pdf" ⟨none, none, none, none, none⟩
        (open_pdf_output_file ⟨true, true, none⟩ "c.pdf" ⟨none, none, none, none, none⟩
          (open_pdf_output_file ⟨true, true, some 2⟩ "b.pdf" ⟨none, none, none, none, none⟩
            (open_pdf_output_file ⟨true, true, some 1⟩ "a.pdf" ⟨none, none, none, none, none⟩
              ⟨[], none, []⟩).2).2).2).2 :=
  reachable_registry_invariant _
    (Reachable.open_file _ _ _ _ (Reachable.open_file _ _ _ _ (Reachable.open_file _ _ _ _
      (Reachable.open_file _ _ _ _ (Reachable.init [])))))

theorem close_loop_eq_map (l : List output_file_t) :
    close_loop l = l.map (fun o => Call.panda_close o.pdf) := by
  induction l with
  | nil => rfl
  | cons o n ih => simp [close_loop, ih]

/-- Claim C3: `close_pdf_output_files` returns success, makes exactly one
`panda_close (o->pdf)` call per registered document, in list order, and no other call,
leaves `output_files` empty and `out` NULL; a second call right afterwards makes no call
at all and returns success. -/
theorem close_all_exactly_once (s : State) :
    (close_pdf_output_files s).1 = true ∧
    (close_pdf_output_files s).2.trace =
      s.trace ++ s.output_files.map (fun o => Call.panda_close o.pdf) ∧
    (close_pdf_output_files s).2.output_files = [] ∧
    (close_pdf_output_files s).2.out = none ∧
    close_pdf_output_files (close_pdf_output_files s).2 = (true, (close_pdf_output_files s).2) := by
  refine ⟨rfl, ?_, rfl, rfl, ?_⟩
  · simp [close_pdf_output_files, close_loop_eq_map]
  · simp [close_pdf_output_files, close_loop]

/-! ## Lemmas on process_page -/

theorem checked_rows_mem (call : Nat → Call) (result : Nat → Int) (l : List Nat) (c : Call)
    (hc : c ∈ (checked_rows call result l).2) : ∃ row ∈ l, c = call row := by
  induction l with
  | nil => simp [checked_rows] at hc
  | cons row rest ih =>
    simp only [checked_rows] at hc
    split at hc
    · simp only [List.mem_singleton] at hc
      exact ⟨row, List.mem_cons_self _ _, hc⟩
    · simp only [List.mem_cons] at hc
      rcases hc with hc | hc
      · exact ⟨row, List.mem_cons_self _ _, hc⟩
      · obtain ⟨r, hr, he⟩ := ih hc
        exact ⟨r, List.mem_cons_of_mem _ hr, he⟩

theorem filter_panda_reads (b : Bitmap) (l : List Nat) :
    List.filter is_panda (List.map (read_call b) l) = [] := by
  rw [List.filter_eq_nil_iff]
  intro c hc
  obtain ⟨row, _, rfl⟩ := List.mem_map.mp hc
  simp [read_call, is_panda]

theorem filter_panda_checked_reads (b : Bitmap) (result : Nat → Int) (l : List Nat) :
    List.filter is_panda (checked_rows (read_call b) result l).2 = [] := by
  rw [List.filter_eq_nil_iff]
  intro c hc
  obtain ⟨row, _, rfl⟩ := checked_rows_mem _ _ _ _ hc
  simp [read_call, is_panda]

theorem filter_panda_checked_writes (b : Bitmap) (result : Nat → Int) (l : List Nat) :
    List.filter is_panda (checked_rows (write_call b) result l).2 = [] := by
  rw [List.filter_eq_nil_iff]
  intro c hc
  obtain ⟨row, _, rfl⟩ := checked_rows_mem _ _ _ _ hc
  simp [write_call, is_panda]

theorem filter_panda_rotate (k : bitblt_consts)
    (bitblt : Bitmap → Rect → Point → Int → Int → Option Bitmap) (src : Bitmap)
    (rotation : Int) :
    List.filter is_panda (rotate_bitmap k bitblt src rotation).2 = [] := by
  unfold rotate_bitmap
  split <;> simp [is_panda]

theorem transfer_page_false {F : Type} (k : bitblt_consts) (env : page_oracle F)
    (rotation : Int) (s : State) (o : output_file_t) (w h d : Nat) (wp hp : Int)
    (hf : (transfer_page k env rotation s o w h d wp hp).1 = false) :
    List.filter is_panda (transfer_page k env rotation s o w h d wp hp).2.trace
      = List.filter is_panda s.trace := by
  unfold transfer_page at hf ⊢
  split
  · simp [is_panda]
  · rename_i src _
    split
    · rename_i reads2 hreads
      have h2 := filter_panda_checked_reads src env.TIFFReadScanline (List.range d)
      rw [hreads] at h2
      simp [is_panda, filter_panda_reads, h2]
    · rename_i reads2 hreads
      have h2 := filter_panda_checked_reads src env.TIFFReadScanline (List.range d)
      rw [hreads] at h2
      split
      · rename_i blt hblt
        have h3 := filter_panda_rotate k env.bitblt src rotation
        rw [hblt] at h3
        simp [is_panda, filter_panda_reads, h2, h3]
      · rename_i dest blt hblt
        have h3 := filter_panda_rotate k env.bitblt src rotation
        rw [hblt] at h3
        split
        · rename_i writes hwrites
          have h4 := filter_panda_checked_writes dest env.TIFFWriteScanline
            (List.range dest.height)
          rw [hwrites] at h4
          simp [is_panda, filter_panda_reads, h2, h3, h4]
        · rename_i writes hwrites
          simp_all

theorem transfer_page_true {F : Type} (k : bitblt_consts) (env : page_oracle F)
    (rotation : Int) (s : State) (o : output_file_t) (w h d : Nat) (wp hp : Int)
    (ht : (transfer_page k env rotation s o w h d wp hp).1 = true) :
    (∃ scan, scan_code k rotation = some scan) ∧
    List.filter is_panda (transfer_page k env rotation s o w h d wp hp).2.trace
      = List.filter is_panda s.trace ++
        [Call.panda_newpage o.pdf (pagesize_string wp hp),
         Call.panda_imagebox o.pdf env.panda_newpage 0 0 hp wp] := by
  unfold transfer_page at ht ⊢
  split
  · simp_all
  · rename_i src _
    split
    · simp_all
    · rename_i reads2 hreads
      have h2 := filter_panda_checked_reads src env.TIFFReadScanline (List.range d)
      rw [hreads] at h2
      split
      · simp_all
      · rename_i dest blt hblt
        have h3 := filter_panda_rotate k env.bitblt src rotation
        rw [hblt] at h3
        split
        · simp_all
        · rename_i writes hwrites
          have h4 := filter_panda_checked_writes dest env.TIFFWriteScanline
            (List.range dest.height)
          rw [hwrites] at h4
          constructor
          · unfold rotate_bitmap at hblt
            split at hblt
            · simp at hblt
            · rename_i scan hscan
              exact ⟨scan, hscan⟩
          · simp [is_panda, filter_panda_reads, h2, h3, h4]

theorem process_page_true_aux {F : Type} (fl : float_ops F) (k : bitblt_consts)
    (env : page_oracle F) (image : Int) (ia : input_attributes_t) (s : State)
    (r : Bool × State) (hr : process_page fl k env image ia s = r) (ht : r.1 = true) :
    ∃ image_length image_width o,
      env.IMAGELENGTH = some image_length ∧ env.IMAGEWIDTH = some image_width ∧
      env.SAMPLESPERPIXEL = some 1 ∧ env.BITSPERSAMPLE = some 1 ∧ planar_config env = 1 ∧
      to_points fl image_width (x_resolution fl env) ≤ PAGE_MAX_POINTS ∧
      to_points fl image_length (y_resolution fl env) ≤ PAGE_MAX_POINTS ∧
      s.out = some o ∧
      (∃ scan, scan_code k ia.rotation = some scan) ∧
      List.filter is_panda r.2.trace = List.filter is_panda s.trace ++
        [Call.panda_newpage o.pdf
          (pagesize_string
            (if quarter_turn ia = true then to_points fl image_length (y_resolution fl env)
              else to_points fl image_width (x_resolution fl env))
            (if quarter_turn ia = true then to_points fl image_width (x_resolution fl env)
              else to_points fl image_length (y_resolution fl env))),
         Call.panda_imagebox o.pdf env.panda_newpage 0 0
            (if quarter_turn ia = true then to_points fl image_width (x_resolution fl env)
              else to_points fl image_length (y_resolution fl env))
            (if quarter_turn ia = true then to_points fl image_length (y_resolution fl env)
              else to_points fl image_width (x_resolution fl env))] := by
  unfold process_page at hr
  split at hr
  · subst hr; simp at ht
  split at hr
  · subst hr; simp at ht
  split at hr
  · subst hr; simp at ht
  split at hr
  · subst hr; simp at ht
  split at hr
  · subst hr; simp at ht
  split at hr
  · subst hr; simp at ht
  split at hr
  · subst hr; simp at ht
  split at hr
  · subst hr; simp at ht
  split at hr
  · subst hr; simp at ht
  split at hr
  · subst hr; simp at ht
  split at hr
  · subst hr; simp at ht
  rename_i h0 x4 image_length hIL x3 image_width hIW x2 spp hSPP x1 bps hBPS h1 h2 h3 h4 h5 x0 o ho
  have h1' : spp = 1 := by simpa using h1
  have h2' : bps = 1 := by simpa using h2
  have h3' : planar_config env = 1 := by simpa using h3
  subst h1' h2'
  have h4' : to_points fl image_width (x_resolution fl env) ≤ PAGE_MAX_POINTS ∧
      to_points fl image_length (y_resolution fl env) ≤ PAGE_MAX_POINTS := by
    constructor
    · by_contra hc; exact h4 (Or.inr (lt_of_not_ge hc))
    · by_contra hc; exact h4 (Or.inl (lt_of_not_ge hc))
  refine ⟨image_length, image_width, o, hIL, hIW, hSPP, hBPS, h3', h4'.1, h4'.2, ho, ?_⟩
  split at hr
  · rename_i hq
    subst hr
    simp only [hq, if_true]
    exact transfer_page_true _ _ _ _ _ _ _ _ _ _ ht
  · rename_i hq
    subst hr
    simp only [hq]
    exact transfer_page_true _ _ _ _ _ _ _ _ _ _ ht

theorem process_page_false_aux {F : Type} (fl : float_ops F) (k : bitblt_consts)
    (env : page_oracle F) (image : Int) (ia : input_attributes_t) (s : State)
    (r : Bool × State) (hr : process_page fl k env image ia s = r) (hf : r.1 = false) :
    List.filter is_panda r.2.trace = List.filter is_panda s.trace := by
  unfold process_page at hr
  split at hr
  · subst hr; rfl
  split at hr
  · subst hr; rfl
  split at hr
  · subst hr; rfl
  split at hr
  · subst hr; rfl
  split at hr
  · subst hr; rfl
  split at hr
  · subst hr; rfl
  split at hr
  · subst hr; rfl
  split at hr
  · subst hr; rfl
  split at hr
  · subst hr; rfl
  split at hr
  · subst hr; rfl
  split at hr
  · subst hr; rfl
  split at hr
  · subst hr; exact transfer_page_false _ _ _ _ _ _ _ _ _ _ hf
  · subst hr; exact transfer_page_false _ _ _ _ _ _ _ _ _ _ hf

theorem process_page_false {F : Type} (fl : float_ops F) (k : bitblt_consts)
    (env : page_oracle F) (image : Int) (ia : input_attributes_t) (s : State)
    (hf : (process_page fl k env image ia s).1 = false) :
    List.filter is_panda (process_page fl k env image ia s).2.trace
      = List.filter is_panda s.trace :=
  process_page_false_aux fl k env image ia s _ rfl hf

theorem process_page_true {F : Type} (fl : float_ops F) (k : bitblt_consts)
    (env : page_oracle F) (image : Int) (ia : input_attributes_t) (s : State)
    (ht : (process_page fl k env image ia s).1 = true) :
    ∃ image_length image_width o,
      env.IMAGELENGTH = some image_length ∧ env.IMAGEWIDTH = some image_width ∧
      env.SAMPLESPERPIXEL = some 1 ∧ env.BITSPERSAMPLE = some 1 ∧ planar_config env = 1 ∧
      to_points fl image_width (x_resolution fl env) ≤ PAGE_MAX_POINTS ∧
      to_points fl image_length (y_resolution fl env) ≤ PAGE_MAX_POINTS ∧
      s.out = some o ∧
      (∃ scan, scan_code k ia.rotation = some scan) ∧
      List.filter is_panda (process_page fl k env image ia s).2.trace =
        List.filter is_panda s.trace ++
        [Call.panda_newpage o.pdf
          (pagesize_string
            (if quarter_turn ia = true then to_points fl image_length (y_resolution fl env)
              else to_points fl image_width (x_resolution fl env))
            (if quarter_turn ia = true then to_points fl image_width (x_resolution fl env)
              else to_points fl image_length (y_resolution fl env))),
         Call.panda_imagebox o.pdf env.panda_newpage 0 0
            (if quarter_turn ia = true then to_points fl image_width (x_resolution fl env)
              else to_points fl image_length (y_resolution fl env))
            (if quarter_turn ia = true then to_points fl image_length (y_resolution fl env)
              else to_points fl image_width (x_resolution fl env))] :=
  process_page_true_aux fl k env image ia s _ rfl ht

theorem scan_code_none (k : bitblt_consts) (rotation : Int)
    (h : rotation ≠ 0 ∧ rotation ≠ 90 ∧ rotation ≠ 180 ∧ rotation ≠ 270) :
    scan_code k rotation = none := by
  simp [scan_code, h.1, h.2.1, h.2.2.1, h.2.2.2]

/-! ## The claims on process_page and rotate_bitmap -/

theorem transfer_page_planar {F : Type} (k : bitblt_consts) (env : page_oracle F)
    (p : Option Nat) (rotation : Int) (s : State) (o : output_file_t) (w h d : Nat)
    (wp hp : Int) :
    transfer_page k { env with PLANARCONFIG := p } rotation s o w h d wp hp =
      transfer_page k env rotation s o w h d wp hp := rfl

/-- Claim C6: `process_page` returns failure and changes nothing (no page is added) when
the samples-per-pixel tag is not 1, when the bits-per-sample tag is not 1, and when the
planar configuration tag is present and not 1; when the planar configuration tag is
absent, `planar_config` is 1 and the call behaves exactly as with the tag present and equal
to 1. -/
theorem unsupported_format_rejected {F : Type} (fl : float_ops F) (k : bitblt_consts)
    (env : page_oracle F) (image : Int) (ia : input_attributes_t) (s : State) :
    (∀ n, env.SAMPLESPERPIXEL = some n → n ≠ 1 →
      (process_page fl k env image ia s).1 = false ∧
      (process_page fl k env image ia s).2 = s) ∧
    (∀ n, env.BITSPERSAMPLE = some n → n ≠ 1 →
      (process_page fl k env image ia s).1 = false ∧
      (process_page fl k env image ia s).2 = s) ∧
    (∀ n, env.PLANARCONFIG = some n → n ≠ 1 →
      (process_page fl k env image ia s).1 = false ∧
      (process_page fl k env image ia s).2 = s) ∧
    (env.PLANARCONFIG = none →
      planar_config env = 1 ∧
      process_page fl k env image ia s =
        process_page fl k { env with PLANARCONFIG := some 1 } image ia s) := by
  refine ⟨?_, ?_, ?_, ?_⟩
  · intro n hn hne
    unfold process_page
    repeat' split
    all_goals first | exact ⟨rfl, rfl⟩ | (exfalso; simp_all)
  · intro n hn hne
    unfold process_page
    repeat' split
    all_goals first | exact ⟨rfl, rfl⟩ | (exfalso; simp_all)
  · intro n hn hne
    unfold process_page
    repeat' split
    all_goals first | exact ⟨rfl, rfl⟩ | (exfalso; simp_all [planar_config])
  · intro hnone
    refine ⟨by simp [planar_config, hnone], ?_⟩
    unfold process_page
    simp only [transfer_page_planar, planar_config, x_resolution, y_resolution, hnone]
    rfl

/-- Witness of C6: pages with 3 samples per pixel, with 8 bits per sample and with planar
configuration 2 are refused; the example page, which has no planar configuration tag, is
processed as with the tag equal to 1, successfully. -/
theorem unsupported_format_rejected_witness :
    ((process_page binary32_ops example_consts
        { example_page 8 2 none none with SAMPLESPERPIXEL := some 3 } 1 ⟨0⟩
        example_state).1 = false ∧
      (process_page binary32_ops example_consts
        { example_page 8 2 none none with SAMPLESPERPIXEL := some 3 } 1 ⟨0⟩
        example_state).2 = example_state) ∧
    ((process_page binary32_ops example_consts
        { example_page 8 2 none none with BITSPERSAMPLE := some 8 } 1 ⟨0⟩
        example_state).1 = false ∧
      (process_page binary32_ops example_consts
        { example_page 8 2 none none with BITSPERSAMPLE := some 8 } 1 ⟨0⟩
        example_state).2 = example_state) ∧
    ((process_page binary32_ops example_consts
        { example_page 8 2 none none with PLANARCONFIG := some 2 } 1 ⟨0⟩
        example_state).1 = false ∧
      (process_page binary32_ops example_consts
        { example_page 8 2 none none with PLANARCONFIG := some 2 } 1 ⟨0⟩
        example_state).2 = example_state) ∧
    (planar_config (example_page 8 2 none none) = 1 ∧
      process_page binary32_ops example_consts (example_page 8 2 none none) 1 ⟨0⟩
        example_state =
      process_page binary32_ops example_consts
        { example_page 8 2 none none with PLANARCONFIG := some 1 } 1 ⟨0⟩ example_state) ∧
    (process_page binary32_ops example_consts (example_page 8 2 none none) 1 ⟨0⟩
      example_state).1 = true :=
  ⟨(unsupported_format_rejected binary32_ops example_consts
      { example_page 8 2 none none with SAMPLESPERPIXEL := some 3 } 1 ⟨0⟩
      example_state).1 3 rfl (by decide),
   (unsupported_format_rejected binary32_ops example_consts
      { example_page 8 2 none none with BITSPERSAMPLE := some 8 } 1 ⟨0⟩
      example_state).2.1 8 rfl (by decide),
   (unsupported_format_rejected binary32_ops example_consts
      { example_page 8 2 none none with PLANARCONFIG := some 2 } 1 ⟨0⟩
      example_state).2.2.1 2 rfl (by decide),
   (unsupported_format_rejected binary32_ops example_consts (example_page 8 2 none none) 1 ⟨0⟩
      example_state).2.2.2 rfl,
   by decide⟩

/-- Claim C7: for a rotation other than 0, 90, 180 and 270 `rotate_bitmap` returns NULL
and makes no call, and `process_page` returns failure and adds no page; for each of the
four rotations `rotate_bitmap` makes exactly one `bitblt` call, on the rectangle from
(0,0) to (width,height) of the source, destination NULL at (0,0), with the scan code
`ROT_0`, `ROT_90`, `ROT_180` or `ROT_270` and `TF_SRC`, and returns what `bitblt` returns. -/
theorem rotation_dispatch {F : Type} (fl : float_ops F) (k : bitblt_consts)
    (env : page_oracle F) (image : Int) (ia : input_attributes_t) (s : State)
    (bitblt : Bitmap → Rect → Point → Int → Int → Option Bitmap) (src : Bitmap) :
    (∀ rotation : Int, rotation ≠ 0 → rotation ≠ 90 → rotation ≠ 180 → rotation ≠ 270 →
      rotate_bitmap k bitblt src rotation = (none, [])) ∧
    (ia.rotation ≠ 0 → ia.rotation ≠ 90 → ia.rotation ≠ 180 → ia.rotation ≠ 270 →
      (process_page fl k env image ia s).1 = false ∧
      List.filter is_panda (process_page fl k env image ia s).2.trace =
        List.filter is_panda s.trace) ∧
    rotate_bitmap k bitblt src 0 =
      (bitblt src ⟨⟨0, 0⟩, ⟨src.width, src.height⟩⟩ ⟨0, 0⟩ k.ROT_0 k.TF_SRC,
       [Call.bitblt src ⟨⟨0, 0⟩, ⟨src.width, src.height⟩⟩ ⟨0, 0⟩ k.ROT_0 k.TF_SRC]) ∧
    rotate_bitmap k bitblt src 90 =
      (bitblt src ⟨⟨0, 0⟩, ⟨src.width, src.height⟩⟩ ⟨0, 0⟩ k.ROT_90 k.TF_SRC,
       [Call.bitblt src ⟨⟨0, 0⟩, ⟨src.width, src.height⟩⟩ ⟨0, 0⟩ k.ROT_90 k.TF_SRC]) ∧
    rotate_bitmap k bitblt src 180 =
      (bitblt src ⟨⟨0, 0⟩, ⟨src.width, src.height⟩⟩ ⟨0, 0⟩ k.ROT_180 k.TF_SRC,
       [Call.bitblt src ⟨⟨0, 0⟩, ⟨src.width, src.height⟩⟩ ⟨0, 0⟩ k.ROT_180 k.TF_SRC]) ∧
    rotate_bitmap k bitblt src 270 =
      (bitblt src ⟨⟨0, 0⟩, ⟨src.width, src.height⟩⟩ ⟨0, 0⟩ k.ROT_270 k.TF_SRC,
       [Call.bitblt src ⟨⟨0, 0⟩, ⟨src.width, src.height⟩⟩ ⟨0, 0⟩ k.ROT_270 k.TF_SRC]) := by
  refine ⟨?_, ?_, rfl, rfl, rfl, rfl⟩
  · intro rotation h0 h90 h180 h270
    unfold rotate_bitmap
    rw [scan_code_none k rotation ⟨h0, h90, h180, h270⟩]
  · intro h0 h90 h180 h270
    have hfalse : (process_page fl k env image ia s).1 = false := by
      cases hb : (process_page fl k env image ia s).1 with
      | false => rfl
      | true =>
        obtain ⟨_, _, _, _, _, _, _, _, _, _, _, ⟨scan, hscan⟩, _⟩ :=
          process_page_true fl k env image ia s hb
        rw [scan_code_none k ia.rotation ⟨h0, h90, h180, h270⟩] at hscan
        cases hscan
    exact ⟨hfalse, process_page_false fl k env image ia s hfalse⟩

/-- Witness of C7: rotation 45 on the example page. -/
theorem rotation_dispatch_witness :
    rotate_bitmap example_consts (example_page 8 2 none none).bitblt ⟨1000, 8, 2, 1⟩ 45
      = (none, []) ∧
    ((process_page binary32_ops example_consts (example_page 8 2 none none) 1 ⟨45⟩
        example_state).1 = false ∧
      List.filter is_panda (process_page binary32_ops example_consts
        (example_page 8 2 none none) 1 ⟨45⟩ example_state).2.trace =
        List.filter is_panda example_state.trace) :=
  ⟨(rotation_dispatch binary32_ops example_consts (example_page 8 2 none none) 1 ⟨45⟩
      example_state (example_page 8 2 none none).bitblt ⟨1000, 8, 2, 1⟩).1 45
      (by decide) (by decide) (by decide) (by decide),
   (rotation_dispatch binary32_ops example_consts (example_page 8 2 none none) 1 ⟨45⟩
      example_state (example_page 8 2 none none).bitblt ⟨1000, 8, 2, 1⟩).2.1
      (by decide) (by decide) (by decide) (by decide)⟩

/-- Claim C9, evaluated on a page of 8 by 2 pixels at 300 dpi with rotation 0 and every
library call succeeding: `process_page` returns success and requests row 0 and row 1 twice
each, once by the unchecked loop of lines 417-421 and once by the checked loop of lines
423-431. -/
theorem scanlines_requested_twice :
    (process_page binary32_ops example_consts (example_page 8 2 none none) 1 ⟨0⟩
      example_state).1 = true ∧
    read_rows (process_page binary32_ops example_consts (example_page 8 2 none none) 1 ⟨0⟩
      example_state).2.trace = [0, 1, 0, 1] := by
  decide

/-- Claim C10, evaluated on a page of 2 by 1 pixels with rotation 90: the checked loop is
bounded by `dest_image_length = image_width = 2`, so after the two requests for row 0
`process_page` requests row 1, which is not a row of the image (`image_length = 1`), into
address 1001, one past the one-byte buffer at 1000 that `create_bitmap (2, 1)` returned. -/
theorem scanline_row_out_of_range :
    (example_page 2 1 none none).IMAGELENGTH = some 1 ∧
    (example_page 2 1 none none).create_bitmap 2 1 = some ⟨1000, 2, 1, 1⟩ ∧
    (process_page binary32_ops example_consts (example_page 2 1 none none) 1 ⟨90⟩
      example_state).2.trace =
      [Call.create_bitmap 2 1, Call.TIFFReadScanline 1000 0, Call.TIFFReadScanline 1000 0,
       Call.TIFFReadScanline 1001 1] ∧
    (process_page binary32_ops example_consts (example_page 2 1 none none) 1 ⟨90⟩
      example_state).1 = false := by
  decide

/-! ## The rows requested by a successful process_page -/

theorem read_rows_append (a b : List Call) : read_rows (a ++ b) = read_rows a ++ read_rows b := by
  induction a with
  | nil => rfl
  | cons c t ih => cases c <;> simp [read_rows, ih]

theorem read_rows_reads (b : Bitmap) (l : List Nat) :
    read_rows (List.map (read_call b) l) = l := by
  induction l with
  | nil => rfl
  | cons row rest ih => simp [read_call, read_rows, ih]

theorem read_rows_writes (b : Bitmap) (l : List Nat) :
    read_rows (List.map (write_call b) l) = [] := by
  induction l with
  | nil => rfl
  | cons row rest ih => simp [write_call, read_rows, ih]

theorem checked_rows_true (call : Nat → Call) (result : Nat → Int) (l : List Nat)
    (h : (checked_rows call result l).1 = true) :
    (checked_rows call result l).2 = List.map call l := by
  induction l with
  | nil => rfl
  | cons row rest ih =>
    simp only [checked_rows] at h ⊢
    split
    · rename_i hne; simp [hne] at h
    · rename_i hne
      simp only [hne, if_false] at h
      simp [ih h]

theorem read_rows_rotate (k : bitblt_consts)
    (bitblt : Bitmap → Rect → Point → Int → Int → Option Bitmap) (src : Bitmap)
    (rotation : Int) : read_rows (rotate_bitmap k bitblt src rotation).2 = [] := by
  unfold rotate_bitmap
  split <;> simp [read_rows]

theorem transfer_page_read_rows {F : Type} (k : bitblt_consts) (env : page_oracle F)
    (rotation : Int) (s : State) (o : output_file_t) (w h d : Nat) (wp hp : Int)
    (ht : (transfer_page k env rotation s o w h d wp hp).1 = true) :
    read_rows (transfer_page k env rotation s o w h d wp hp).2.trace =
      read_rows s.trace ++ (List.range h ++ List.range d) := by
  unfold transfer_page at ht ⊢
  split
  · simp_all
  · rename_i src _
    split
    · simp_all
    · rename_i reads2 hreads
      have h2 := checked_rows_true (read_call src) env.TIFFReadScanline (List.range d)
      rw [hreads] at h2
      have h2' := h2 rfl
      simp only at h2'
      split
      · simp_all
      · rename_i dest blt hblt
        have h3 := read_rows_rotate k env.bitblt src rotation
        rw [hblt] at h3
        split
        · simp_all
        · rename_i writes hwrites
          have h4 := checked_rows_true (write_call dest) env.TIFFWriteScanline
            (List.range dest.height)
          rw [hwrites] at h4
          have h4' := h4 rfl
          simp only at h4' h3
          subst h2' h4'
          simp [read_rows_append, read_rows_reads, read_rows_writes, h3, read_rows]

theorem process_page_read_rows_aux {F : Type} (fl : float_ops F) (k : bitblt_consts)
    (env : page_oracle F) (image : Int) (ia : input_attributes_t) (s : State)
    (r : Bool × State) (hr : process_page fl k env image ia s = r) (ht : r.1 = true) :
    ∃ image_length image_width,
      env.IMAGELENGTH = some image_length ∧ env.IMAGEWIDTH = some image_width ∧
      read_rows r.2.trace = read_rows s.trace ++
        (List.range image_length ++
          List.range (if quarter_turn ia = true then image_width else image_length)) := by
  unfold process_page at hr
  split at hr
  · subst hr; simp at ht
  split at hr
  · subst hr; simp at ht
  split at hr
  · subst hr; simp at ht
  split at hr
  · subst hr; simp at ht
  split at hr
  · subst hr; simp at ht
  split at hr
  · subst hr; simp at ht
  split at hr
  · subst hr; simp at ht
  split at hr
  · subst hr; simp at ht
  split at hr
  · subst hr; simp at ht
  split at hr
  · subst hr; simp at ht
  split at hr
  · subst hr; simp at ht
  rename_i h0 x4 image_length hIL x3 image_width hIW x2 spp hSPP x1 bps hBPS h1 h2 h3 h4 h5 x0 o ho
  refine ⟨image_length, image_width, hIL, hIW, ?_⟩
  split at hr
  · rename_i hq
    subst hr
    simp only [hq, if_true]
    exact transfer_page_read_rows _ _ _ _ _ _ _ _ _ _ ht
  · rename_i hq
    subst hr
    simp only [hq]
    exact transfer_page_read_rows _ _ _ _ _ _ _ _ _ _ ht

/-- The rows requested by a successful `process_page`: the rows `0 .. image_length - 1` by
the unchecked loop, then the rows `0 .. dest_image_length - 1` by the checked loop, where
`dest_image_length` is `image_width` for a quarter turn and `image_length` otherwise. -/
theorem process_page_read_rows {F : Type} (fl : float_ops F) (k : bitblt_consts)
    (env : page_oracle F) (image : Int) (ia : input_attributes_t) (s : State)
    (ht : (process_page fl k env image ia s).1 = true) :
    ∃ image_length image_width,
      env.IMAGELENGTH = some image_length ∧ env.IMAGEWIDTH = some image_width ∧
      read_rows (process_page fl k env image ia s).2.trace = read_rows s.trace ++
        (List.range image_length ++
          List.range (if quarter_turn ia = true then image_width else image_length)) :=
  process_page_read_rows_aux fl k env image ia s _ rfl ht

set_option maxRecDepth 8000 in
/-- The value of `width_points` for a width of 16777219 pixels at a resolution of 16777220
depends on the arithmetic of `float`: 72 when every operation is rounded to binary32 (the
width itself is rounded to 16777220), 71 when the expression is evaluated in the extended
format; for 2550 by 3300 pixels at 300 dpi both give 612 and 792. -/
theorem to_points_depends_on_float_ops :
    to_points binary32_ops 16777219 (.finite false 16777220 0) = 72 ∧
    to_points extended_ops 16777219 (.finite false 16777220 0) = 71 ∧
    to_points binary32_ops 2550 (binary32_ops.of_int 300) = 612 ∧
    to_points binary32_ops 3300 (binary32_ops.of_int 300) = 792 ∧
    to_points extended_ops 2550 (extended_ops.of_int 300) = 612 ∧
    to_points extended_ops 3300 (extended_ops.of_int 300) = 792 := by
  decide

/-! ## Error of the rounded arithmetic -/

set_option maxRecDepth 8000 in
/-- Claim C5, evaluated on oversize pages in binary32: a page 29826162 pixels wide at 1 dpi
has a width of 2147483664 units in exact arithmetic, far above 3240; the float product is
2 ^ 31, which does not fit an `int`, the conversion leaves `INT_MIN` in `width_points`, the
test of line 346 passes and the page is added with the page size
"[0 0 -2147483648 0]".  A page with a horizontal resolution of 0 is added in the same way. -/
theorem oversize_page_accepted :
    exact_points 29826162 (fp_to_rat (.finite false 1 0)) = 2147483664 ∧
    to_points binary32_ops 29826162 (.finite false 1 0) = -2147483648 ∧
    (process_page binary32_ops example_consts
      (example_page 29826162 1 (some (.finite false 1 0)) none) 1 ⟨0⟩
      example_state).1 = true ∧
    List.filter is_panda (process_page binary32_ops example_consts
      (example_page 29826162 1 (some (.finite false 1 0)) none) 1 ⟨0⟩
      example_state).2.trace =
      [Call.panda_newpage 5 (pagesize_string (-2147483648) 0),
       Call.panda_imagebox 5 7 0 0 0 (-2147483648)] ∧
    (process_page binary32_ops example_consts
      (example_page 2550 1 (some (.finite false 0 0)) none) 1 ⟨0⟩
      example_state).1 = true ∧
    List.filter is_panda (process_page binary32_ops example_consts
      (example_page 2550 1 (some (.finite false 0 0)) none) 1 ⟨0⟩
      example_state).2.trace =
      [Call.panda_newpage 5 (pagesize_string (-2147483648) 0),
       Call.panda_imagebox 5 7 0 0 0 (-2147483648)] := by
  refine ⟨?_, by decide, by decide, by decide, by decide, by decide⟩
  unfold exact_points
  rw [Int.floor_eq_iff]
  simp only [fp_to_rat]
  norm_num

end T2P
